import Mathlib

/-!
Shallow embedding of `array_view.hpp` (template classes `array_view<T>`,
`array_iterator_base<...>` and `strided_array_view<T, OffsetBytes, StrideBytes>`).

Modelling conventions:
* Memory is a total map `mem : Int → α` over the address space; a C++ pointer is
  `Option Int` (`none` = `nullptr`, `some p` = address `p`).  Addresses are
  measured in elements for `array_view` and in bytes for `strided_array_view`,
  exactly like the corresponding C++ pointer arithmetic.
* `std::size_t` values are `Nat`; where the source performs `size_t` arithmetic
  that can wrap (e.g. `size() - 1` on an empty view, `offset + count` in the
  slice bound check), the wrap is made explicit with `% sizeTMod`,
  `sizeTMod = 2^64`.  `std::ptrdiff_t` (iterator indices, displacements) is
  modelled as unbounded `Int`.
* The build flag `ARRAY_VIEW_DEBUG_CHECKS` is the explicit parameter
  `dc : Bool` of every operation whose validation is `#if`-gated.
* `ARRAY_VIEW_ERROR` (abort or throw, carrying a diagnostic message) is
  modelled as the error case of `Except AvError` for the always-checked
  operations, and as the `err` case of `AccessResult` for the element accessors
  that also have an unchecked path.  Each `AvError` constructor corresponds to
  one family of source diagnostic messages.
* Operations whose unchecked path performs a C++ null-pointer dereference are
  given the result `AccessResult.ub` (undefined behavior); an unchecked read
  through a valid base pointer is modelled as a read of the total memory map.
-/

/-- Modulus of `std::size_t` arithmetic (64-bit build): 2^64. -/
def sizeTMod : Nat := 18446744073709551616

/-- Error kinds raised through `ARRAY_VIEW_ERROR`.  Each constructor stands for
one family of diagnostic messages in the source:
* `nullAccess` — "array_view pointer is null or size is zero!" /
  "strided_array_view: null pointer!",
* `outOfBounds` — "index is out-of-bounds!" / "slice offset greater or equal size!",
* `malformedSlice` — "array_view slice size is greater than total size!",
* `crossViewOperation` — "Array iterators belong to different objects!",
* `notDereferenceable` — "iterator not dereferenceable!",
* `invalidIterator` — "Incrementing/Decrementing an invalid array iterator!". -/
inductive AvError : Type where
  | nullAccess
  | outOfBounds
  | malformedSlice
  | crossViewOperation
  | notDereferenceable
  | invalidIterator
deriving DecidableEq

/-- Result of an element access that may be checked or unchecked:
a value, a signalled error (`ARRAY_VIEW_ERROR`), or C++ undefined behavior. -/
inductive AccessResult (α : Type) : Type where
  | ok (a : α)
  | err (e : AvError)
  | ub
deriving DecidableEq

/-- `array_view<T>`: the two data members `m_pointer` (here `ptr`) and
`m_size_in_items` (here `size`), lines 737-739 of the source. -/
structure ArrayView : Type where
  ptr : Option Int
  size : Nat
deriving DecidableEq

/-- The pointer+count constructor `array_view(ConvertibleType*, size_type)`
(source lines 406-410): stores both arguments with no validation. -/
def ArrayView.ofPtrCount (p : Option Int) (n : Nat) : ArrayView :=
  { ptr := p, size := n }

/-- `array_view::data()` (source lines 637-644). -/
def ArrayView.data (V : ArrayView) : Option Int := V.ptr

/-- `array_view::at(index)` (source lines 482-503): `check_not_null()` errors
when `data() == nullptr || empty()`, then the index is bound-checked, then the
element at `data() + index` is returned.  Always validated, in every build. -/
def ArrayView.atIdx {α : Type} (mem : Int → α) (V : ArrayView) (i : Nat) :
    Except AvError α :=
  match V.ptr with
  | none => .error .nullAccess
  | some p =>
    if V.size = 0 then .error .nullAccess
    else if V.size ≤ i then .error .outOfBounds
    else .ok (mem (p + (i : Int)))

/-- `array_view::operator[](index)` (source lines 505-529), as invoked from the
iterator with a `difference_type` index: the debug build runs `check_not_null`
and the bound check (a negative index converts to a huge `size_type`, hence is
caught by `index >= size()`); the release build dereferences `data() + index`
unchecked — undefined behavior when `data()` is null, otherwise a raw read of
memory. -/
def ArrayView.subscript {α : Type} (mem : Int → α) (dc : Bool) (V : ArrayView)
    (i : Int) : AccessResult α :=
  match V.ptr with
  | none => if dc then .err .nullAccess else .ub
  | some p =>
    if dc then
      if V.size = 0 then .err .nullAccess
      else if i < 0 ∨ (V.size : Int) ≤ i then .err .outOfBounds
      else .ok (mem (p + i))
    else .ok (mem (p + i))

/-- Two-argument `array_view::slice(offset_in_items, item_count)` (source lines
453-476).  The guard `data() == nullptr || empty() || item_count == 0` returns
the default-constructed view before any of the `#if`-gated bound checks run;
the debug checks then reject `offset >= size()` and `offset + count > size()`
(the latter computed in wrapping `size_t` arithmetic); otherwise the sub-view
`{ m_pointer + offset_in_items, item_count }` is returned. -/
def ArrayView.slice2 (dc : Bool) (V : ArrayView) (o c : Nat) :
    Except AvError ArrayView :=
  match V.ptr with
  | none => .ok { ptr := none, size := 0 }
  | some p =>
    if V.size = 0 ∨ c = 0 then .ok { ptr := none, size := 0 }
    else if dc ∧ V.size ≤ o then .error .outOfBounds
    else if dc ∧ V.size < (o + c) % sizeTMod then .error .malformedSlice
    else .ok { ptr := some (p + (o : Int)), size := c }

/-- One element read of a view, `mem (data() + i)`, as an `Option` (absent on a
null view); the element-by-element body of `std::equal` in `operator==`. -/
def ArrayView.read {α : Type} (mem : Int → α) (V : ArrayView) (i : Nat) :
    Option α := V.ptr.map fun p => mem (p + (i : Int))

/-- `array_view::operator==` (source lines 663-679): pointer identity
short-circuits to `true` regardless of the sizes; different sizes give
`false`; otherwise `std::equal(begin(), end(), other.begin())` compares the
elements pairwise.  (For views violating the `ptr = none → size = 0` invariant
the source's `std::equal` walks a null-iterator range — debug-abort or
undefined behavior; theorems about this model therefore carry that
invariant.) -/
def ArrayView.beq {α : Type} [DecidableEq α] (mem : Int → α)
    (A B : ArrayView) : Bool :=
  if A.ptr = B.ptr then true
  else if A.size ≠ B.size then false
  else decide (∀ i, i < A.size → A.read mem i = B.read mem i)

/-- `array_iterator_base`: the members `m_parent_array` (the address of the
parent view object, a `parent_type *`) and `m_current_index`
(a `difference_type`), source lines 349-355. -/
structure ArrayIterator : Type where
  parent : Option Nat
  index : Int
deriving DecidableEq

/-- `array_view::make_iterator` / `begin()` (source lines 536-547, 727-735):
`iterator{ this, 0 }` when `data() != nullptr`, else the null iterator.
`a` is the address of the view object (`this`). -/
def ArrayView.begin (a : Nat) (V : ArrayView) : ArrayIterator :=
  if V.ptr.isSome then { parent := some a, index := 0 }
  else { parent := none, index := 0 }

/-- `array_view::end()` (source lines 550-561): `iterator{ this, size() }` when
`data() != nullptr`, else the null iterator. -/
def ArrayView.iterEnd (a : Nat) (V : ArrayView) : ArrayIterator :=
  if V.ptr.isSome then { parent := some a, index := (V.size : Int) }
  else { parent := none, index := 0 }

/-- `array_iterator_base::operator+` via `increment` (source lines 152-156,
323-334): the debug build rejects an iterator with a null parent, then the
displacement is added to the stored index (no bound clamp). -/
def iterAdd (dc : Bool) (it : ArrayIterator) (k : Int) :
    Except AvError ArrayIterator :=
  if dc ∧ it.parent = none then .error .invalidIterator
  else .ok { parent := it.parent, index := it.index + k }

/-- `array_iterator_base::operator-` for two iterators (source lines 143-150):
the debug build requires the same parent object (`check_same_parent`), then the
index difference is returned. -/
def iterSub (dc : Bool) (a b : ArrayIterator) : Except AvError Int :=
  if dc ∧ a.parent ≠ b.parent then .error .crossViewOperation
  else .ok (a.index - b.index)

/-- `array_iterator_base::operator==` (source lines 246-253): the debug build
requires the same parent object, then the indices are compared. -/
def iterEq (dc : Bool) (a b : ArrayIterator) : Except AvError Bool :=
  if dc ∧ a.parent ≠ b.parent then .error .crossViewOperation
  else .ok (decide (a.index = b.index))

/-- `array_iterator_base::operator<` (source lines 259-266): the debug build
requires the same parent object, then the indices are compared. -/
def iterLt (dc : Bool) (a b : ArrayIterator) : Except AvError Bool :=
  if dc ∧ a.parent ≠ b.parent then .error .crossViewOperation
  else .ok (decide (a.index < b.index))

/-- The friend `swap(array_iterator_base&, array_iterator_base&)` (source lines
298-303): unconditionally exchanges `m_parent_array` and `m_current_index` of
the two iterators, `noexcept`, with no parent check in any build; functionally,
the pair `(lhs, rhs)` becomes `(rhs, lhs)`.  The `dc` parameter and the
`Except` wrapper are kept so the operation is comparable with the checked
iterator operations; no path produces an error. -/
def iterSwap (_dc : Bool) (a b : ArrayIterator) :
    Except AvError (ArrayIterator × ArrayIterator) :=
  .ok (b, a)

/-- `array_iterator_base::is_dereferenceable` (source lines 307-311):
a non-null parent and `0 <= m_current_index < m_parent_array->size()`.
`viewAt` maps a view-object address to the view stored there. -/
def isDereferenceable (viewAt : Nat → ArrayView) (it : ArrayIterator) : Bool :=
  match it.parent with
  | none => false
  | some a => decide (0 ≤ it.index ∧ it.index < ((viewAt a).size : Int))

/-- `array_iterator_base::operator*` and `operator->` (source lines 194-215):
the debug build errors when `!is_dereferenceable()`; both builds then return
`(*m_parent_array)[m_current_index]` — the parent view's `operator[]` with the
same build flag (a null parent pointer dereference is undefined behavior). -/
def iterDeref {α : Type} (viewAt : Nat → ArrayView) (mem : Int → α)
    (dc : Bool) (it : ArrayIterator) : AccessResult α :=
  if dc ∧ isDereferenceable viewAt it = false then .err .notDereferenceable
  else
    match it.parent with
    | none => .ub
    | some a => (viewAt a).subscript mem dc it.index

/-- `strided_array_view<T, OffsetBytes, StrideBytes>`: the members `m_pointer`
(a byte pointer, here `ptr`) and `m_size_in_bytes` (here `sizeBytes`), source
lines 960-964, together with the two template parameters `OffsetBytes` and
`StrideBytes` (source lines 772-777, 841-842) as fields. -/
structure StridedArrayView : Type where
  ptr : Option Int
  sizeBytes : Nat
  offsetBytes : Nat
  strideBytes : Nat
deriving DecidableEq

/-- `strided_array_view::empty()` (source lines 828-831): `size_bytes() == 0`. -/
def StridedArrayView.empty (sv : StridedArrayView) : Bool :=
  decide (sv.sizeBytes = 0)

/-- `strided_array_view::size()` (source lines 836-839): the integer division
`size_bytes() / stride_bytes()`. -/
def StridedArrayView.size (sv : StridedArrayView) : Nat :=
  sv.sizeBytes / sv.strideBytes

/-- `strided_array_view::get_item_raw_ptr(index)` (source lines 922-929):
`m_pointer + index * stride_bytes() + offset_bytes()`, never checked. -/
def StridedArrayView.itemAddr (sv : StridedArrayView) (p : Int) (i : Nat) :
    Int := p + ((i * sv.strideBytes : Nat) : Int) + (sv.offsetBytes : Int)

/-- `strided_array_view::operator[](index)` (source lines 890-919): the debug
build errors on a null pointer and then on `index >= size()`; the release
build reinterprets `get_item_raw_ptr(index)` unchecked — undefined behavior on
a null base pointer, otherwise a raw memory read. -/
def StridedArrayView.subscript {α : Type} (mem : Int → α) (dc : Bool)
    (sv : StridedArrayView) (i : Nat) : AccessResult α :=
  match sv.ptr with
  | none => if dc then .err .nullAccess else .ub
  | some p =>
    if dc ∧ sv.size ≤ i then .err .outOfBounds
    else .ok (mem (sv.itemAddr p i))

/-- `strided_array_view::at(index)` (source lines 861-888): unconditionally
errors on a null pointer and then on `index >= size()`, else reads the item. -/
def StridedArrayView.atIdx {α : Type} (mem : Int → α) (sv : StridedArrayView)
    (i : Nat) : Except AvError α :=
  match sv.ptr with
  | none => .error .nullAccess
  | some p =>
    if sv.size ≤ i then .error .outOfBounds
    else .ok (mem (sv.itemAddr p i))

/-- `strided_array_view::front()` (source lines 931-938): `operator[](0)`. -/
def StridedArrayView.front {α : Type} (mem : Int → α) (dc : Bool)
    (sv : StridedArrayView) : AccessResult α :=
  sv.subscript mem dc 0

/-- `strided_array_view::back()` (source lines 940-947): `operator[](size() - 1)`
with `size() - 1` computed in wrapping `size_t` arithmetic (an empty view gives
index `2^64 - 1`). -/
def StridedArrayView.back {α : Type} (mem : Int → α) (dc : Bool)
    (sv : StridedArrayView) : AccessResult α :=
  sv.subscript mem dc ((sv.size + (sizeTMod - 1)) % sizeTMod)

/-- C1: for every view `V`, every offset `o` and every build configuration,
the two-argument `slice(o, 0)` returns the default (empty) view and signals no
error, even when `o ≥ V.size()`: the `item_count == 0` short-circuit runs
before any bound validation of the offset. -/
theorem slice2_zero_count_no_error (dc : Bool) (V : ArrayView) (o : Nat) :
    V.slice2 dc o 0 = Except.ok { ptr := none, size := 0 } := by
  unfold ArrayView.slice2
  cases V.ptr with
  | none => rfl
  | some p => simp

/-- C2 (counterexample): with debug checks disabled, dereferencing an iterator
whose index (5) is outside its parent's bounds (size 3) performs an unchecked
read and returns a value instead of signalling an error — the dereference
validity check is gated by the debug-checks flag, not unconditional. -/
theorem iter_deref_unchecked_cex :
    isDereferenceable (fun _ => { ptr := some 100, size := 3 })
      { parent := some 0, index := 5 } = false ∧
    iterDeref (fun _ => ({ ptr := some 100, size := 3 } : ArrayView))
      (fun _ => (0 : Int)) false { parent := some 0, index := 5 } =
      AccessResult.ok 0 := by
  constructor
  · rfl
  · rfl

/-- C2 (amended): the dereference/arrow validity check runs only when the
debug-checks flag is enabled.  With the flag on, a non-dereferenceable
iterator (null parent, or current index outside `[0, parent.size())`) fails;
with the flag off, dereference never signals an error — it performs an
unchecked access that is undefined behavior when invalid. -/
theorem iter_deref_checked_only {α : Type} (viewAt : Nat → ArrayView)
    (mem : Int → α) (it : ArrayIterator)
    (h : isDereferenceable viewAt it = false) :
    iterDeref viewAt mem true it = AccessResult.err .notDereferenceable ∧
    ∀ e, iterDeref viewAt mem false it ≠ AccessResult.err e := by
  constructor
  · unfold iterDeref
    simp [h]
  · intro e
    unfold iterDeref
    simp only [Bool.false_eq_true, false_and, if_false]
    cases hp : it.parent with
    | none => simp
    | some a =>
      simp only
      unfold ArrayView.subscript
      cases (viewAt a).ptr with
      | none => simp
      | some p => simp

/-- C2 (witness): the amended theorem applied to the concrete out-of-bounds
iterator of the counterexample. -/
theorem iter_deref_checked_only_witness :
    iterDeref (fun _ => ({ ptr := some 100, size := 3 } : ArrayView))
      (fun _ => (0 : Int)) true { parent := some 0, index := 5 } =
      AccessResult.err .notDereferenceable :=
  (iter_deref_checked_only (fun _ => ({ ptr := some 100, size := 3 } : ArrayView))
    (fun _ => (0 : Int)) { parent := some 0, index := 5 } rfl).1

/-- C3 (counterexample): with debug checks disabled, `front()` on a null
strided view does not fail with NullAccess (it performs an unchecked access,
here undefined behavior) — `front`/`back` delegate to the flag-gated
`operator[]`, so their validation is not active in every build
configuration. -/
theorem strided_front_unchecked_cex :
    ({ ptr := none, sizeBytes := 0, offsetBytes := 0, strideBytes := 8 } :
      StridedArrayView).ptr = none ∧
    StridedArrayView.front (fun _ => (0 : Int)) false
      { ptr := none, sizeBytes := 0, offsetBytes := 0, strideBytes := 8 } ≠
      AccessResult.err .nullAccess := by
  constructor
  · rfl
  · intro h
    exact absurd h (by decide)

/-- C3 (amended): strided `front()` and `back()` delegate to `operator[]`, so
they validate against the derived `size() = size_bytes() / stride_bytes()`
only when debug checks are enabled: then a null view fails with NullAccess and
an accessed index `≥ size()` fails with OutOfBounds (in particular both fail
on a non-null view of derived size 0, `back` through `size_t` wrap of
`size() - 1`); in-range accesses read the item bytes.  With debug checks
disabled, neither ever signals an error. -/
theorem strided_front_back_checked {α : Type} (mem : Int → α)
    (sv : StridedArrayView) :
    (sv.ptr = none →
      sv.front mem true = AccessResult.err .nullAccess ∧
      sv.back mem true = AccessResult.err .nullAccess) ∧
    (∀ p, sv.ptr = some p → sv.size = 0 →
      sv.front mem true = AccessResult.err .outOfBounds ∧
      sv.back mem true = AccessResult.err .outOfBounds) ∧
    (∀ p, sv.ptr = some p → 0 < sv.size → sv.size < sizeTMod →
      sv.front mem true = AccessResult.ok (mem (sv.itemAddr p 0)) ∧
      sv.back mem true = AccessResult.ok (mem (sv.itemAddr p (sv.size - 1)))) ∧
    (∀ e, sv.front mem false ≠ AccessResult.err e) ∧
    (∀ e, sv.back mem false ≠ AccessResult.err e) := by
  refine ⟨?_, ?_, ?_, ?_, ?_⟩
  · intro hnull
    unfold StridedArrayView.front StridedArrayView.back StridedArrayView.subscript
    rw [hnull]
    exact ⟨rfl, rfl⟩
  · intro p hp hsz
    unfold StridedArrayView.front StridedArrayView.back StridedArrayView.subscript
    rw [hp, hsz]
    constructor
    · simp
    · have hlt : 0 < (sizeTMod - 1) % sizeTMod := by
        unfold sizeTMod
        decide
      simp only [Nat.zero_add]
      simp [Nat.le_of_lt hlt]
  · intro p hp h0 hub
    unfold StridedArrayView.front StridedArrayView.back StridedArrayView.subscript
    rw [hp]
    have hidx : (sv.size + (sizeTMod - 1)) % sizeTMod = sv.size - 1 := by
      have h1 : sv.size + (sizeTMod - 1) = (sv.size - 1) + 1 * sizeTMod := by
        have : 1 ≤ sizeTMod := by unfold sizeTMod; decide
        omega
      rw [h1, Nat.add_mul_mod_self_right]
      exact Nat.mod_eq_of_lt (by omega)
    rw [hidx]
    constructor
    · have h3 : ¬ (sv.size ≤ 0) := by omega
      simp [h3]
    · have h4 : ¬ (sv.size ≤ sv.size - 1) := by omega
      simp [h4]
  · intro e
    unfold StridedArrayView.front StridedArrayView.subscript
    cases sv.ptr with
    | none => simp
    | some p => simp
  · intro e
    unfold StridedArrayView.back StridedArrayView.subscript
    cases sv.ptr with
    | none => simp
    | some p => simp

/-- C3 (witness): the amended theorem applied to a concrete strided view
(base 0, 24 bytes total, field offset 4, stride 8, so derived size 3):
`front` reads byte address 4 and `back` reads byte address 20 under checks. -/
theorem strided_front_back_checked_witness :
    StridedArrayView.front (fun a => a) true
      { ptr := some 0, sizeBytes := 24, offsetBytes := 4, strideBytes := 8 } =
      AccessResult.ok 4 ∧
    StridedArrayView.back (fun a => a) true
      { ptr := some 0, sizeBytes := 24, offsetBytes := 4, strideBytes := 8 } =
      AccessResult.ok 20 := by
  have h := (strided_front_back_checked (fun a => a)
    { ptr := some 0, sizeBytes := 24, offsetBytes := 4, strideBytes := 8 }).2.2.1
    0 rfl (by decide) (by unfold StridedArrayView.size sizeTMod; decide)
  exact ⟨h.1, h.2⟩

/-- C5: in every build configuration, `at(i)` on a view of size `N` fails with
NullAccess when the view is null or empty, fails with OutOfBounds when
`i ≥ N`, and otherwise returns the element stored at `base_address + i`. -/
theorem view_at_spec {α : Type} (mem : Int → α) (V : ArrayView) (i : Nat) :
    (V.ptr = none ∨ V.size = 0 →
      V.atIdx mem i = Except.error .nullAccess) ∧
    (∀ p, V.ptr = some p → 0 < V.size → V.size ≤ i →
      V.atIdx mem i = Except.error .outOfBounds) ∧
    (∀ p, V.ptr = some p → i < V.size →
      V.atIdx mem i = Except.ok (mem (p + (i : Int)))) := by
  refine ⟨?_, ?_, ?_⟩
  · intro h
    unfold ArrayView.atIdx
    cases hp : V.ptr with
    | none => rfl
    | some p =>
      rcases h with h | h
      · rw [hp] at h; exact absurd h (by simp)
      · simp [h]
  · intro p hp h0 hge
    unfold ArrayView.atIdx
    rw [hp]
    simp [Nat.pos_iff_ne_zero.mp h0, hge]
  · intro p hp hlt
    unfold ArrayView.atIdx
    rw [hp]
    have h0 : V.size ≠ 0 := by omega
    have h2 : ¬ (V.size ≤ i) := by omega
    simp [h0, h2]

/-- C5 (witness): `at` applied to the concrete view at base address 5 of
size 3 with the identity memory: `at(1)` reads address 6. -/
theorem view_at_spec_witness :
    ArrayView.atIdx (fun a => a) { ptr := some 5, size := 3 } 1 =
      Except.ok 6 := by
  have h := (view_at_spec (fun a => a) { ptr := some 5, size := 3 } 1).2.2
    5 rfl (by decide)
  simpa using h

/-- C4: view equality over the same element type: `A == B` holds whenever the
data pointers are identical, regardless of the declared sizes; when the
pointers differ, `A == B` holds exactly when the sizes match and every element
compares equal pairwise.  (Both views satisfy the data-model invariant that an
absent pointer implies count 0, the domain on which `std::equal` over the
iterator range coincides with pairwise element reads.) -/
theorem view_eq_spec {α : Type} [DecidableEq α] (mem : Int → α)
    (A B : ArrayView) (hA : A.ptr = none → A.size = 0)
    (hB : B.ptr = none → B.size = 0) :
    (A.ptr = B.ptr → ArrayView.beq mem A B = true) ∧
    (A.ptr ≠ B.ptr →
      (ArrayView.beq mem A B = true ↔
        A.size = B.size ∧ ∀ i, i < A.size → A.read mem i = B.read mem i)) := by
  constructor
  · intro hp
    unfold ArrayView.beq
    simp [hp]
  · intro hp
    unfold ArrayView.beq
    rw [if_neg hp]
    by_cases hsz : A.size = B.size
    · simp [hsz]
    · rw [if_pos hsz]
      simp [hsz]

/-- C4 (witness): two views at different addresses (0 and 10) of size 2 whose
elements agree pairwise compare equal. -/
theorem view_eq_spec_witness :
    ArrayView.beq (fun a => if a < 10 then a else a - 10)
      { ptr := some 0, size := 2 } { ptr := some 10, size := 2 } = true := by
  have h := (view_eq_spec (fun a => if a < 10 then a else a - 10)
    { ptr := some 0, size := 2 } { ptr := some 10, size := 2 }
    (by intro h; exact absurd h (by simp))
    (by intro h; exact absurd h (by simp))).2 (by simp)
  exact h.mpr (by decide)

/-- C6 (counterexample): under the checked build, swapping two iterators with
different parent objects (addresses 0 and 1) does not fail with
CrossViewOperation: the `swap` overload exchanges the two iterators
unconditionally, with no `check_same_parent` call. -/
theorem iter_swap_unchecked_cex :
    ({ parent := some 0, index := 0 } : ArrayIterator).parent ≠
      ({ parent := some 1, index := 0 } : ArrayIterator).parent ∧
    iterSwap true { parent := some 0, index := 0 }
      { parent := some 1, index := 0 } =
      Except.ok ({ parent := some 1, index := 0 },
        { parent := some 0, index := 0 }) := by
  exact ⟨by decide, rfl⟩

/-- C6 (amended): under the checked-build option, comparing (`==`, `<`) or
subtracting two bound iterators whose parent views are different instances
fails with CrossViewOperation; swapping, however, is never checked and simply
exchanges the two iterators. -/
theorem iter_cross_view_checked (a b : ArrayIterator)
    (h : a.parent ≠ b.parent) :
    iterEq true a b = Except.error .crossViewOperation ∧
    iterLt true a b = Except.error .crossViewOperation ∧
    iterSub true a b = Except.error .crossViewOperation ∧
    iterSwap true a b = Except.ok (b, a) := by
  unfold iterEq iterLt iterSub iterSwap
  simp [h]

/-- C6 (witness): the amended theorem applied to two concrete iterators with
parent objects at addresses 0 and 1. -/
theorem iter_cross_view_checked_witness :
    iterSub true { parent := some 0, index := 0 }
      { parent := some 1, index := 0 } =
      Except.error .crossViewOperation :=
  (iter_cross_view_checked { parent := some 0, index := 0 }
    { parent := some 1, index := 0 } (by decide)).2.2.1

/-- C7 (counterexample): under the checked build, for the null view the law
`(V.begin() + k) - V.begin() == k` fails at `k = 1`: `begin()` is the null
iterator and incrementing it signals an error ("Incrementing an invalid array
iterator!") instead of producing the difference 1. -/
theorem iter_law_null_view_cex :
    (iterAdd true (ArrayView.begin 0 { ptr := none, size := 0 }) 1).bind
      (fun it => iterSub true it
        (ArrayView.begin 0 { ptr := none, size := 0 })) =
      Except.error .invalidIterator ∧
    (Except.error AvError.invalidIterator : Except AvError Int) ≠
      Except.ok 1 := by
  refine ⟨rfl, ?_⟩
  intro h
  exact Except.noConfusion h

/-- C7 (amended): for every view satisfying the null-implies-empty invariant,
the iterator laws `(V.begin() + k) - V.begin() == k` and
`V.begin() + N == V.end()` hold whenever the view's data pointer is non-null
or the debug checks are disabled; under checked builds a null view is the one
exception, since `begin()` is then the null iterator and incrementing it
fails. -/
theorem iter_laws (dc : Bool) (a : Nat) (V : ArrayView) (k : Int)
    (hInv : V.ptr = none → V.size = 0)
    (h : V.ptr ≠ none ∨ dc = false) :
    (iterAdd dc (V.begin a) k).bind (fun it => iterSub dc it (V.begin a)) =
      Except.ok k ∧
    (iterAdd dc (V.begin a) (V.size : Int)).bind
      (fun it => iterEq dc it (V.iterEnd a)) = Except.ok true := by
  cases hp : V.ptr with
  | some p =>
    simp [ArrayView.begin, ArrayView.iterEnd, iterAdd, iterSub, iterEq,
      Except.bind, hp]
  | none =>
    have hdc : dc = false := by
      rcases h with h | h
      · exact absurd hp h
      · exact h
    have hsz : V.size = 0 := hInv hp
    simp [ArrayView.begin, ArrayView.iterEnd, iterAdd, iterSub, iterEq,
      Except.bind, hp, hdc, hsz]

/-- C7 (witness): the amended laws at the concrete view of size 3 at base
address 5 (object address 0), displacement `k = 2`, checked build. -/
theorem iter_laws_witness :
    (iterAdd true (ArrayView.begin 0 { ptr := some 5, size := 3 }) 2).bind
      (fun it => iterSub true it
        (ArrayView.begin 0 { ptr := some 5, size := 3 })) = Except.ok 2 ∧
    (iterAdd true (ArrayView.begin 0 { ptr := some 5, size := 3 })
      ((3 : Nat) : Int)).bind
      (fun it => iterEq true it
        (ArrayView.iterEnd 0 { ptr := some 5, size := 3 })) =
      Except.ok true := by
  have h := iter_laws true 0 { ptr := some 5, size := 3 } 2
    (by intro h; exact absurd h (by simp)) (Or.inl (by simp))
  exact ⟨h.1, h.2⟩

/-- C8: in every build configuration, for a view satisfying the data-model
invariant and the slice preconditions `o < size()` and `o + c ≤ size()`
(size within `size_t` range), `slice(o, c)` succeeds with a sub-view of size
`c` whose `at(i)` agrees with `at(o + i)` on the original view for every
`i < c`. -/
theorem slice2_spec {α : Type} (mem : Int → α) (dc : Bool) (V : ArrayView)
    (o c : Nat) (hInv : V.ptr = none → V.size = 0) (hub : V.size < sizeTMod)
    (h1 : o < V.size) (h2 : o + c ≤ V.size) :
    ∃ W, V.slice2 dc o c = Except.ok W ∧ W.size = c ∧
      ∀ i, i < c → W.atIdx mem i = V.atIdx mem (o + i) := by
  cases hp : V.ptr with
  | none =>
    have : V.size = 0 := hInv hp
    omega
  | some p =>
    have hsz : V.size ≠ 0 := by omega
    by_cases hc : c = 0
    · subst hc
      refine ⟨{ ptr := none, size := 0 }, ?_, rfl, ?_⟩
      · unfold ArrayView.slice2
        rw [hp]
        simp
      · intro i hi
        omega
    · refine ⟨{ ptr := some (p + (o : Int)), size := c }, ?_, rfl, ?_⟩
      · unfold ArrayView.slice2
        rw [hp]
        have hmod : (o + c) % sizeTMod = o + c := Nat.mod_eq_of_lt (by omega)
        have hno1 : ¬ (V.size ≤ o) := by omega
        have hno2 : ¬ (V.size < (o + c) % sizeTMod) := by omega
        simp [hsz, hc, hno1, hno2]
      · intro i hi
        unfold ArrayView.atIdx
        rw [hp]
        have ha : ¬ (c ≤ i) := by omega
        have hd : ¬ (V.size ≤ o + i) := by omega
        have hcast : (p + (o : Int)) + (i : Int) = p + ((o + i : Nat) : Int) := by
          push_cast
          ring
        simp [hc, hsz, ha, hd, hcast]

/-- C8 (witness): slicing the view at base 0 of size 4 with offset 1 and
count 2 under the checked build. -/
theorem slice2_spec_witness :
    ∃ W, ArrayView.slice2 true { ptr := some 0, size := 4 } 1 2 =
        Except.ok W ∧ W.size = 2 ∧
      ∀ i, i < 2 → W.atIdx (fun a => a) i =
        ArrayView.atIdx (fun a => a) { ptr := some 0, size := 4 } (1 + i) :=
  slice2_spec (fun a => a) true { ptr := some 0, size := 4 } 1 2
    (by intro h; exact absurd h (by simp))
    (by unfold sizeTMod; decide) (by decide) (by decide)

/-- C9 (counterexample): the pointer+count constructor stores its arguments
unvalidated, so the view built from a null pointer and count 5 has an absent
pointer but `size() = 5 ≠ 0` — "every view whose pointer is absent has
count 0" fails, and with it "every null view has size() == 0". -/
theorem null_view_nonzero_size_cex :
    (ArrayView.ofPtrCount none 5).ptr = none ∧
    (ArrayView.ofPtrCount none 5).size ≠ 0 := by
  exact ⟨rfl, by decide⟩

/-- C9 (amended): every null view and every empty view satisfies
`begin() == end()` (in every build configuration) and checked access `at` on
it fails with NullAccess; an empty view has `size() == 0` by definition, but a
null view need not, because the pointer+count constructor does not validate —
pointer-absent-implies-count-0 is a data-model invariant the code does not
enforce. -/
theorem null_or_empty_view_spec {α : Type} (dc : Bool) (a : Nat)
    (mem : Int → α) (V : ArrayView) (h : V.ptr = none ∨ V.size = 0) :
    iterEq dc (V.begin a) (V.iterEnd a) = Except.ok true ∧
    ∀ i, V.atIdx mem i = Except.error .nullAccess := by
  constructor
  · cases hp : V.ptr with
    | none => simp [ArrayView.begin, ArrayView.iterEnd, iterEq, hp]
    | some p =>
      have hsz : V.size = 0 := by
        rcases h with h | h
        · rw [hp] at h; exact absurd h (by simp)
        · exact h
      simp [ArrayView.begin, ArrayView.iterEnd, iterEq, hp, hsz]
  · intro i
    unfold ArrayView.atIdx
    cases hp : V.ptr with
    | none => rfl
    | some p =>
      have hsz : V.size = 0 := by
        rcases h with h | h
        · rw [hp] at h; exact absurd h (by simp)
        · exact h
      simp [hsz]

/-- C9 (witness): the amended theorem at the concrete empty-but-non-null view
(base address 7, size 0), checked build, object address 0, index 2. -/
theorem null_or_empty_view_spec_witness :
    iterEq true (ArrayView.begin 0 { ptr := some 7, size := 0 })
      (ArrayView.iterEnd 0 { ptr := some 7, size := 0 }) = Except.ok true ∧
    ArrayView.atIdx (fun x => x) { ptr := some 7, size := 0 } 2 =
      Except.error .nullAccess := by
  have h := null_or_empty_view_spec true 0 (fun x => x)
    { ptr := some 7, size := 0 } (Or.inr rfl)
  exact ⟨h.1, h.2 2⟩

/-- C10: for a strided view whose total byte size is nonzero but strictly
below its stride, `empty()` returns false while `size()` returns 0, so
`empty()` is not equivalent to `size() == 0`: `empty()` tests the byte count
and `size()` is the integer division `size_bytes() / stride_bytes()`. -/
theorem strided_empty_vs_size (sv : StridedArrayView)
    (h1 : 0 < sv.sizeBytes) (h2 : sv.sizeBytes < sv.strideBytes) :
    sv.empty = false ∧ sv.size = 0 ∧ ¬ (sv.empty = true ↔ sv.size = 0) := by
  have he : sv.empty = false := by
    unfold StridedArrayView.empty
    simp
    omega
  have hs : sv.size = 0 := by
    unfold StridedArrayView.size
    exact Nat.div_eq_of_lt h2
  refine ⟨he, hs, ?_⟩
  intro hiff
  have : sv.empty = true := hiff.mpr hs
  rw [he] at this
  exact Bool.noConfusion this

/-- C10 (witness): a strided view of 4 total bytes with stride 8 is not empty
yet has derived size 0. -/
theorem strided_empty_vs_size_witness :
    ({ ptr := some 0, sizeBytes := 4, offsetBytes := 0, strideBytes := 8 } :
      StridedArrayView).empty = false ∧
    ({ ptr := some 0, sizeBytes := 4, offsetBytes := 0, strideBytes := 8 } :
      StridedArrayView).size = 0 := by
  have h := strided_empty_vs_size
    { ptr := some 0, sizeBytes := 4, offsetBytes := 0, strideBytes := 8 }
    (by decide) (by decide)
  exact ⟨h.1, h.2.1⟩
